import Mathlib

/-!
Shallow embedding of `CLUSTERING_API.py`, a small Flask service that
exposes five clustering algorithms behind a `POST /cluster` endpoint and a
localized guide behind `GET /clustering-guide`.

Modelling conventions:
* Python exceptions are values of `PyError`; a function that can raise
  returns `Except PyError α`.  An `Except.error` escaping the handler is an
  unhandled exception (Flask would render it as a 500, not a structured
  response built by the handler).
* A pandas `DataFrame` is a header row of column names plus a list of rows
  of cells; cells are kept as strings since no claim inspects cell values.
* The third-party scikit-learn / scipy routines are not part of this
  repository; they are abstracted as a record `SKLearn` of total functions,
  and every theorem quantifies over it.  (As proved below they are
  unreachable anyway: each clusterer class of the source defines a method
  named `init`, not Python's `__init__`, so under Python 3 semantics every
  constructor call `ClassName(args...)` raises
  `TypeError: ClassName() takes no arguments` before any library call.)
* File output (`result_df.to_excel`) is modelled by an explicit write log
  and a disk state (an association list from file names to frames).
-/

/-- Python-level exceptions that the translated code can raise.  `other`
covers exceptions coming out of library calls such as `pd.read_excel`
(e.g. a `BadZipFile` on a malformed spreadsheet). -/
inductive PyError where
  | typeError (msg : String)
  | valueError (msg : String)
  | keyError (msg : String)
  | other (msg : String)
deriving DecidableEq, Repr

/-- A pandas DataFrame: named columns over rectangular rows of cells. -/
structure DataFrame where
  header : List String
  rows : List (List String)
deriving DecidableEq, Repr

/-- Index of a column name in the header, if present. -/
def DataFrame.colIdx (df : DataFrame) (name : String) : Option Nat :=
  df.header.findIdx? (fun h => h == name)

/-- `df[name]`: the column's cells, or a Python `KeyError` when the column
is absent (pandas raises `KeyError(name)` on a missing column label). -/
def DataFrame.getCol (df : DataFrame) (name : String) : Except PyError (List String) :=
  match df.colIdx name with
  | some i => Except.ok (df.rows.map (fun r => r.getD i ""))
  | none => Except.error (PyError.keyError name)

/-- `df.drop(columns=[name])` restricted to the case the code reaches:
when the column exists it is removed from the header and from every row.
(When it does not exist pandas raises, but in `perform_clustering` the
preceding `data['Name']` has already raised in that case.) -/
def DataFrame.dropCol (df : DataFrame) (name : String) : DataFrame :=
  match df.colIdx name with
  | some i => ⟨df.header.eraseIdx i, df.rows.map (fun r => r.eraseIdx i)⟩
  | none => df

/-- The third-party clustering routines used by the source
(`sklearn.cluster.KMeans`, `DBSCAN`, `MeanShift`, `AgglomerativeClustering`
and `scipy.cluster.hierarchy.linkage` / `fcluster`).  They are not code of
this repository, so they are kept abstract; every theorem below holds for
an arbitrary interpretation of this record. -/
structure SKLearn where
  kmeans_fit_predict : Int → List (List String) → List Int
  dbscan_fit_predict : Rat → Int → List (List String) → List Int
  linkage : List (List String) → String → List (List Rat)
  fcluster : List (List Rat) → Rat → String → List Int
  meanshift_fit_predict : List (List String) → List Int
  agglomerative_fit_predict : Int → List (List String) → List Int

/-- A trivial interpretation of the library record, used to instantiate
theorems at concrete inputs. -/
def constLib : SKLearn where
  kmeans_fit_predict := fun _ _ => []
  dbscan_fit_predict := fun _ _ _ => []
  linkage := fun _ _ => []
  fcluster := fun _ _ _ => []
  meanshift_fit_predict := fun _ => []
  agglomerative_fit_predict := fun _ _ => []

/-- State of a `KMeansClusterer` object as its `init` method would build it
(source lines 9-19). -/
structure KMeansClusterer where
  data : List (List String)
  n_clusters : Int

/-- The constructor call `KMeansClusterer(data, n_clusters=...)` (source
line 137).  The class defines a method named `init`, not Python's
`__init__`; under Python 3 semantics a class that overrides neither
`__new__` nor `__init__` rejects constructor arguments, so this call
raises `TypeError: KMeansClusterer() takes no arguments` and no object is
ever built. -/
def KMeansClusterer.new (_data : List (List String)) (_n_clusters : Int) :
    Except PyError KMeansClusterer :=
  Except.error (PyError.typeError "KMeansClusterer() takes no arguments")

/-- `KMeansClusterer.fit_predict` (source lines 21-29): delegate to
`KMeans(n_clusters=self.n_clusters).fit_predict(self.data)`. -/
def KMeansClusterer.fit_predict (lib : SKLearn) (c : KMeansClusterer) : List Int :=
  lib.kmeans_fit_predict c.n_clusters c.data

/-- State of a `DBSCANClusterer` object (source lines 32-43). -/
structure DBSCANClusterer where
  data : List (List String)
  eps : Rat
  min_samples : Int

/-- The constructor call `DBSCANClusterer(data, eps=..., min_samples=...)`
(source line 139): raises `TypeError` for the same reason as
`KMeansClusterer.new` (the class defines `init`, not `__init__`). -/
def DBSCANClusterer.new (_data : List (List String)) (_eps : Rat) (_min_samples : Int) :
    Except PyError DBSCANClusterer :=
  Except.error (PyError.typeError "DBSCANClusterer() takes no arguments")

/-- `DBSCANClusterer.fit_predict` (source lines 45-53). -/
def DBSCANClusterer.fit_predict (lib : SKLearn) (c : DBSCANClusterer) : List Int :=
  lib.dbscan_fit_predict c.eps c.min_samples c.data

/-- State of a `HierarchicalClusterer` object (source lines 56-68). -/
structure HierarchicalClusterer where
  data : List (List String)
  method : String
  threshold : Rat
  criterion : String

/-- The constructor call `HierarchicalClusterer(data, method='ward',
threshold=...)` (source line 141): raises `TypeError` (the class defines
`init`, not `__init__`). -/
def HierarchicalClusterer.new (_data : List (List String)) (_method : String)
    (_threshold : Rat) : Except PyError HierarchicalClusterer :=
  Except.error (PyError.typeError "HierarchicalClusterer() takes no arguments")

/-- `HierarchicalClusterer.fit_predict` (source lines 70-78): build the
linkage matrix, then cut it with `fcluster`. -/
def HierarchicalClusterer.fit_predict (lib : SKLearn) (c : HierarchicalClusterer) :
    List Int :=
  lib.fcluster (lib.linkage c.data c.method) c.threshold c.criterion

/-- State of a `MeanShiftClusterer` object (source lines 81-90). -/
structure MeanShiftClusterer where
  data : List (List String)

/-- The constructor call `MeanShiftClusterer(data)` (source line 143):
raises `TypeError` (the class defines `init`, not `__init__`). -/
def MeanShiftClusterer.new (_data : List (List String)) :
    Except PyError MeanShiftClusterer :=
  Except.error (PyError.typeError "MeanShiftClusterer() takes no arguments")

/-- `MeanShiftClusterer.fit_predict` (source lines 92-100). -/
def MeanShiftClusterer.fit_predict (lib : SKLearn) (c : MeanShiftClusterer) : List Int :=
  lib.meanshift_fit_predict c.data

/-- State of an `AgglomerativeClusterer` object (source lines 103-113). -/
structure AgglomerativeClusterer where
  data : List (List String)
  n_clusters : Int

/-- The constructor call `AgglomerativeClusterer(data, n_clusters=...)`
(source line 145): raises `TypeError` (the class defines `init`, not
`__init__`). -/
def AgglomerativeClusterer.new (_data : List (List String)) (_n_clusters : Int) :
    Except PyError AgglomerativeClusterer :=
  Except.error (PyError.typeError "AgglomerativeClusterer() takes no arguments")

/-- `AgglomerativeClusterer.fit_predict` (source lines 115-123). -/
def AgglomerativeClusterer.fit_predict (lib : SKLearn) (c : AgglomerativeClusterer) :
    List Int :=
  lib.agglomerative_fit_predict c.n_clusters c.data

/-- The `clusterer` local of `perform_clustering`: whichever of the five
classes the dispatch selected. -/
inductive Clusterer where
  | km (c : KMeansClusterer)
  | db (c : DBSCANClusterer)
  | hi (c : HierarchicalClusterer)
  | ms (c : MeanShiftClusterer)
  | ag (c : AgglomerativeClusterer)

/-- `clusterer.fit_predict()` (source line 149), dispatched on the class of
the object. -/
def Clusterer.fit_predict (lib : SKLearn) : Clusterer → List Int
  | .km c => c.fit_predict lib
  | .db c => c.fit_predict lib
  | .hi c => c.fit_predict lib
  | .ms c => c.fit_predict lib
  | .ag c => c.fit_predict lib

/-- The message of the `ValueError` raised on an unrecognized method name
(source line 147). -/
def invalidMethodMsg : String :=
  "Invalid clustering method. Choose 'kmeans', 'dbscan', 'hierarchical', 'meanshift', or 'agglomerative'."

/-- `pd.DataFrame({'Name': names, 'Cluster': labels})` (source line 150). -/
def outputFrame (names : List String) (labels : List Int) : DataFrame :=
  ⟨["Name", "Cluster"], names.zipWith (fun n l => [n, toString l]) labels⟩

/-- `perform_clustering` (source lines 126-151): read the `Name` column,
drop it to obtain the feature matrix, dispatch on the method name to build
a clusterer, run it, and pair names with labels. -/
def perform_clustering (lib : SKLearn) (data : DataFrame) (method : String)
    (n_clusters : Int) (eps : Rat) (min_samples : Int) (threshold : Rat) :
    Except PyError DataFrame := do
  let names ← data.getCol "Name"
  let features := (data.dropCol "Name").rows
  let clusterer ←
    if method = "kmeans" then
      (KMeansClusterer.new features n_clusters).map Clusterer.km
    else if method = "dbscan" then
      (DBSCANClusterer.new features eps min_samples).map Clusterer.db
    else if method = "hierarchical" then
      (HierarchicalClusterer.new features "ward" threshold).map Clusterer.hi
    else if method = "meanshift" then
      (MeanShiftClusterer.new features).map Clusterer.ms
    else if method = "agglomerative" then
      (AgglomerativeClusterer.new features n_clusters).map Clusterer.ag
    else
      Except.error (PyError.valueError invalidMethodMsg)
  let labels := clusterer.fit_predict lib
  pure (outputFrame names labels)

/-- The five recognized method names. -/
def validMethods : List String :=
  ["kmeans", "dbscan", "hierarchical", "meanshift", "agglomerative"]

/-- Python `str.lower()` on one character, for the Basic Latin range: the
uppercase letters `A`-`Z` (codepoints 65-90) map to their lowercase forms
(codepoints 97-122); every other character of the keys involved here is
unchanged.  (Python's `lower` also folds non-ASCII uppercase letters; the
guide keys compared against are pure ASCII, so that fragment suffices.) -/
def pyLowerChar (c : Char) : Char :=
  if 65 ≤ c.toNat ∧ c.toNat ≤ 90 then Char.ofNat (c.toNat + 32) else c

/-- Python `str.lower()`: characterwise lowering. -/
def pyLower (s : String) : String :=
  ⟨s.data.map pyLowerChar⟩

/-- One language's guide: a sentence per algorithm, the per-language inner
dictionaries of `get_clustering_guide` (source lines 160-189). -/
structure GuideDict where
  kmeans : String
  dbscan : String
  hierarchical : String
  meanshift : String
  agglomerative : String
deriving DecidableEq, Repr

/-- `guides["english"]` (source lines 161-167). -/
def englishGuide : GuideDict where
  kmeans := "KMeans is best suited for spherical clusters with similar sizes and requires the number of clusters as input."
  dbscan := "DBSCAN is ideal for detecting arbitrary-shaped clusters and noise, without needing the number of clusters."
  hierarchical := "Hierarchical clustering is suitable for hierarchical structures, with dendrograms to visualize relationships."
  meanshift := "MeanShift is good for finding clusters with a high-density region without needing the number of clusters."
  agglomerative := "Agglomerative clustering works well for building a hierarchy of clusters using a bottom-up approach."

/-- `guides["farsi"]` (source lines 168-174). -/
def farsiGuide : GuideDict where
  kmeans := "KMeans برای خوشههای کروی با اندازههای مشابه و نیازمند تعداد خوشهها به عنوان ورودی مناسب است."
  dbscan := "DBSCAN برای شناسایی خوشههای با اشکال دلخواه و نویز، بدون نیاز به تعداد خوشهها ایدهآل است."
  hierarchical := "خوشهبندی سلسلهمراتبی برای ساختارهای سلسلهمراتبی مناسب است و دندروگرامها روابط را نمایش میدهند."
  meanshift := "MeanShift برای یافتن خوشههای با ناحیه تراکم بالا، بدون نیاز به تعداد خوشهها خوب است."
  agglomerative := "خوشهبندی Agglomerative برای ساخت سلسلهمراتب خوشهها از پایین به بالا مناسب است."

/-- `guides["arabic"]` (source lines 175-181). -/
def arabicGuide : GuideDict where
  kmeans := "KMeans مناسب لتصنيف المجموعات الكروية المتشابهة الحجم ويتطلب إدخال عدد المجموعات."
  dbscan := "DBSCAN مثالي لاكتشاف المجموعات ذات الأشكال التعسفية والضوضاء، دون الحاجة إلى عدد المجموعات."
  hierarchical := "التصنيف الهرمي مناسب للهياكل الهرمية، ويعرض العلاقات عبر المخططات الشجرية."
  meanshift := "MeanShift جيد لتحديد المجموعات ذات الكثافة العالية دون الحاجة إلى عدد المجموعات."
  agglomerative := "التصنيف التجميعي مناسب لبناء تسلسل هرمي من المجموعات باستخدام نهج من الأسفل إلى الأعلى."

/-- `guides["french"]` (source lines 182-188). -/
def frenchGuide : GuideDict where
  kmeans := "KMeans est idéal pour les clusters sphériques de taille similaire et nécessite le nombre de clusters en entrée."
  dbscan := "DBSCAN est idéal pour détecter des clusters de formes arbitraires et le bruit, sans nécessiter le nombre de clusters."
  hierarchical := "Le clustering hiérarchique est adapté aux structures hiérarchiques et utilise des dendrogrammes pour visualiser les relations."
  meanshift := "MeanShift est bien adapté pour trouver des clusters avec une région de forte densité sans nécessiter le nombre de clusters."
  agglomerative := "Le clustering agglomératif fonctionne bien pour construire une hiérarchie de clusters avec une approche ascendante."

/-- `guides.get(key, guides["english"])`: lookup among the four keys with
the English dictionary as default. -/
def guidesGet (key : String) : GuideDict :=
  if key = "english" then englishGuide
  else if key = "farsi" then farsiGuide
  else if key = "arabic" then arabicGuide
  else if key = "french" then frenchGuide
  else englishGuide

/-- `get_clustering_guide` (source lines 153-190):
`guides.get(language.lower(), guides["english"])`. -/
def get_clustering_guide (language : String) : GuideDict :=
  guidesGet (pyLower language)

/-- HTTP responses the two handlers can build: a JSON error object with a
status code, a file attachment (`send_file(..., as_attachment=True)`,
status 200), or the guide as JSON (status 200). -/
inductive HttpResponse where
  | jsonError (status : Nat) (msg : String)
  | fileAttachment (status : Nat) (name : String) (content : DataFrame)
  | jsonGuide (status : Nat) (g : GuideDict)
deriving DecidableEq, Repr

/-- The HTTP status code of a response. -/
def HttpResponse.status : HttpResponse → Nat
  | .jsonError s _ => s
  | .fileAttachment s _ _ => s
  | .jsonGuide s _ => s

/-- One file write performed by a handler: target name and content. -/
abbrev FileWrite := String × DataFrame

/-- The server's working directory: file names mapped to frame contents. -/
abbrev Disk := List (String × DataFrame)

/-- Writing a file: overwrite the entry with that name, or append it. -/
def writeFile : Disk → String → DataFrame → Disk
  | [], name, content => [(name, content)]
  | e :: es, name, content =>
      if e.1 = name then (name, content) :: es else e :: writeFile es name content

/-- Apply a write log to a disk, in order. -/
def applyWrites (d : Disk) (ws : List FileWrite) : Disk :=
  ws.foldl (fun acc w => writeFile acc w.1 w.2) d

/-- Content of a file on disk, if present. -/
def lookupDisk (d : Disk) (name : String) : Option DataFrame :=
  (d.find? (fun e => e.1 == name)).map Prod.snd

/-- The fixed output filename of the `/cluster` handler (source line 219). -/
def outputFileName : String := "clusters_output.xlsx"

/-- A `POST /cluster` request, after Flask/werkzeug parsing:
`hasFile` is `'file' in request.files`; `readExcel` is the outcome of
`pd.read_excel(file)` on the uploaded bytes (only reached when a file is
present); `method` is `request.form.get('method', 'kmeans')`, i.e. the
form value after defaulting; the numeric fields are the successfully
parsed `int()` / `float()` values of the corresponding form fields (a
parse failure there raises on source lines 207-210, before any code
modelled here runs, and escapes the handler unhandled). -/
structure ClusterRequest where
  hasFile : Bool
  readExcel : Except PyError DataFrame
  method : String
  n_clusters : Int
  eps : Rat
  min_samples : Int
  threshold : Rat

/-- Source lines 214-222: the part of `cluster_data` after `pd.read_excel`.
A `ValueError` from `perform_clustering` is caught and becomes a 400 JSON
error; any other exception propagates; on success the result frame is
written to `clusters_output.xlsx` and returned as an attachment. -/
def respond_with_result :
    Except PyError DataFrame → Except PyError HttpResponse × List FileWrite
  | .error (.valueError msg) => (.ok (.jsonError 400 msg), [])
  | .error e => (.error e, [])
  | .ok df => (.ok (.fileAttachment 200 outputFileName df), [(outputFileName, df)])

/-- `cluster_data` (source lines 194-222): reject a request without a file
with a 400 JSON error; otherwise parse the spreadsheet (errors escape
unhandled), run `perform_clustering`, and respond. -/
def cluster_data (lib : SKLearn) (req : ClusterRequest) :
    Except PyError HttpResponse × List FileWrite :=
  if req.hasFile = false then (.ok (.jsonError 400 "No file uploaded"), [])
  else
    match req.readExcel with
    | .error e => (.error e, [])
    | .ok data =>
        respond_with_result
          (perform_clustering lib data req.method req.n_clusters req.eps
            req.min_samples req.threshold)

/-- `clustering_guide` (source lines 225-229):
`request.args.get('language', 'english').lower()` then
`get_clustering_guide`. -/
def clustering_guide (langArg : Option String) : HttpResponse :=
  .jsonGuide 200 (get_clustering_guide (pyLower (langArg.getD "english")))

/-- A request to either route of the service. -/
inductive ApiRequest where
  | clusterPost (r : ClusterRequest)
  | guideGet (language : Option String)

/-- One request-response cycle of the service, including its effect on the
working directory: `POST /cluster` applies its write log to the disk;
`GET /clustering-guide` is read-only. -/
def serve (lib : SKLearn) (d : Disk) : ApiRequest → Except PyError HttpResponse × Disk
  | .clusterPost r =>
      let (resp, ws) := cluster_data lib r
      (resp, applyWrites d ws)
  | .guideGet lang => (.ok (clustering_guide lang), d)

/-- `leads pat l` is true when `pat` is an initial segment of `l`. -/
def leads : List Char → List Char → Bool
  | [], _ => true
  | _ :: _, [] => false
  | p :: ps, c :: cs => p = c && leads ps cs

/-- `occursIn pat l` is true when `pat` occurs contiguously in `l`. -/
def occursIn (pat : List Char) : List Char → Bool
  | [] => leads pat []
  | c :: cs => leads pat (c :: cs) || occursIn pat cs

/-- Substring test on strings. -/
def strHasSub (s pat : String) : Bool :=
  occursIn pat.data s.data

/-- `Char.ofNat` inverts `Char.toNat` on codepoints below the surrogate
range. -/
theorem char_toNat_ofNat (n : Nat) (h : n < 55296) : (Char.ofNat n).toNat = n := by
  have hv : n.isValidChar := Or.inl h
  rw [Char.ofNat, dif_pos hv]
  simp [Char.ofNatAux, Char.toNat, UInt32.toNat, BitVec.toNat_ofNatLt]

/-- Lowering a character twice is the same as lowering it once. -/
theorem pyLowerChar_idem (c : Char) : pyLowerChar (pyLowerChar c) = pyLowerChar c := by
  by_cases h : 65 ≤ c.toNat ∧ c.toNat ≤ 90
  · have ht : (Char.ofNat (c.toNat + 32)).toNat = c.toNat + 32 :=
      char_toNat_ofNat _ (by omega)
    simp only [pyLowerChar, if_pos h, ht]
    rw [if_neg (by omega)]
  · simp only [pyLowerChar, if_neg h]

/-- Lowering a string twice is the same as lowering it once. -/
theorem pyLower_idem (s : String) : pyLower (pyLower s) = pyLower s := by
  apply congrArg String.mk
  show (s.data.map pyLowerChar).map pyLowerChar = s.data.map pyLowerChar
  rw [List.map_map]
  exact List.map_congr_left (fun c _ => pyLowerChar_idem c)

/-- `Except`'s bind on a success value reduces to the continuation. -/
theorem except_bind_ok {α β : Type} (v : α) (k : α → Except PyError β) :
    (do let x ← Except.ok v; k x) = k v := rfl

/-- `Except`'s bind on an error short-circuits. -/
theorem except_bind_error {α β : Type} (e : PyError) (k : α → Except PyError β) :
    (do let x ← (Except.error e : Except PyError α); k x) = Except.error e := rfl

/-- Mapping over an error is the error. -/
theorem except_fmap_error {α β : Type} (f : α → β) (e : PyError) :
    (f <$> (Except.error e : Except PyError α)) = Except.error e := rfl

/-- `Except.map` over an error is the error. -/
theorem except_map_error {α β : Type} (f : α → β) (e : PyError) :
    Except.map f (Except.error e : Except PyError α) = Except.error e := rfl

/-- Reading a present column succeeds. -/
theorem DataFrame.getCol_of_mem (df : DataFrame) (name : String)
    (h : name ∈ df.header) : ∃ v, df.getCol name = Except.ok v := by
  have hi := List.findIdx?_eq_some_of_exists (p := fun x => x == name)
    ⟨name, h, beq_self_eq_true name⟩
  refine ⟨df.rows.map (fun r => r.getD (df.header.findIdx (fun x => x == name)) ""), ?_⟩
  simp [DataFrame.getCol, DataFrame.colIdx, hi]

/-- Reading an absent column raises `KeyError`. -/
theorem DataFrame.getCol_of_not_mem (df : DataFrame) (name : String)
    (h : name ∉ df.header) : df.getCol name = Except.error (PyError.keyError name) := by
  have hn : df.header.findIdx? (fun x => x == name) = none := by
    rw [List.findIdx?_eq_none_iff]
    intro x hx
    simp only [beq_eq_false_iff_ne, ne_eq]
    exact fun hxe => h (hxe ▸ hx)
  simp [DataFrame.getCol, DataFrame.colIdx, hn]

/-- With a `Name` column present, an unrecognized method name makes
`perform_clustering` raise the `ValueError` of source line 147. -/
theorem perform_clustering_invalid_method (lib : SKLearn) (data : DataFrame)
    (method : String) (n_clusters : Int) (eps : Rat) (min_samples : Int)
    (threshold : Rat) (hn : "Name" ∈ data.header) (hm : method ∉ validMethods) :
    perform_clustering lib data method n_clusters eps min_samples threshold =
      Except.error (PyError.valueError invalidMethodMsg) := by
  obtain ⟨v, hv⟩ := data.getCol_of_mem "Name" hn
  simp only [validMethods, List.mem_cons, List.not_mem_nil, or_false, not_or] at hm
  obtain ⟨h1, h2, h3, h4, h5⟩ := hm
  simp [perform_clustering, hv, except_bind_ok, h1, h2, h3, h4, h5]

/-- With a `Name` column present, every recognized method name makes
`perform_clustering` raise a `TypeError`: each clusterer class defines
`init` rather than `__init__`, so its constructor rejects arguments. -/
theorem perform_clustering_valid_typeError (lib : SKLearn) (data : DataFrame)
    (method : String) (n_clusters : Int) (eps : Rat) (min_samples : Int)
    (threshold : Rat) (hn : "Name" ∈ data.header) (hm : method ∈ validMethods) :
    ∃ msg, perform_clustering lib data method n_clusters eps min_samples threshold =
      Except.error (PyError.typeError msg) := by
  obtain ⟨v, hv⟩ := data.getCol_of_mem "Name" hn
  simp only [validMethods, List.mem_cons, List.not_mem_nil, or_false] at hm
  rcases hm with h | h | h | h | h <;> subst h
  · exact ⟨"KMeansClusterer() takes no arguments", by
      simp [perform_clustering, hv, except_bind_ok, except_fmap_error, except_map_error,
        KMeansClusterer.new]⟩
  · exact ⟨"DBSCANClusterer() takes no arguments", by
      simp [perform_clustering, hv, except_bind_ok, except_fmap_error, except_map_error,
        DBSCANClusterer.new]⟩
  · exact ⟨"HierarchicalClusterer() takes no arguments", by
      simp [perform_clustering, hv, except_bind_ok, except_fmap_error, except_map_error,
        HierarchicalClusterer.new]⟩
  · exact ⟨"MeanShiftClusterer() takes no arguments", by
      simp [perform_clustering, hv, except_bind_ok, except_fmap_error, except_map_error,
        MeanShiftClusterer.new]⟩
  · exact ⟨"AgglomerativeClusterer() takes no arguments", by
      simp [perform_clustering, hv, except_bind_ok, except_fmap_error, except_map_error,
        AgglomerativeClusterer.new]⟩

/-- Without a `Name` column, `perform_clustering` raises `KeyError` on its
first line (source line 133), before the method dispatch. -/
theorem perform_clustering_missing_name (lib : SKLearn) (data : DataFrame)
    (method : String) (n_clusters : Int) (eps : Rat) (min_samples : Int)
    (threshold : Rat) (hn : "Name" ∉ data.header) :
    perform_clustering lib data method n_clusters eps min_samples threshold =
      Except.error (PyError.keyError "Name") := by
  simp [perform_clustering, data.getCol_of_not_mem "Name" hn, except_bind_error]

/-- After writing a file, reading it back gives the written content. -/
theorem lookupDisk_writeFile_self (d : Disk) (name : String) (df : DataFrame) :
    lookupDisk (writeFile d name df) name = some df := by
  induction d with
  | nil => simp [writeFile, lookupDisk, List.find?]
  | cons e es ih =>
    by_cases h : e.1 = name
    · simp [writeFile, h, lookupDisk, List.find?]
    · have hb : (e.1 == name) = false := by simp [h]
      simp only [writeFile, if_neg h, lookupDisk, List.find?_cons, hb]
      simpa [lookupDisk] using ih

/-- Writing a file leaves every other file unchanged. -/
theorem lookupDisk_writeFile_other (d : Disk) (name other : String) (df : DataFrame)
    (h : other ≠ name) : lookupDisk (writeFile d name df) other = lookupDisk d other := by
  have hb : (name == other) = false := beq_eq_false_iff_ne.mpr (Ne.symm h)
  induction d with
  | nil => simp [writeFile, lookupDisk, List.find?, hb]
  | cons e es ih =>
    by_cases he : e.1 = name
    · have hbe : (e.1 == other) = false := beq_eq_false_iff_ne.mpr (he ▸ Ne.symm h)
      simp [writeFile, he, lookupDisk, List.find?_cons, hb, hbe]
    · by_cases heo : e.1 = other
      · have hbe : (e.1 == other) = true := beq_iff_eq.mpr heo
        simp [writeFile, if_neg he, lookupDisk, List.find?_cons, hbe]
      · have hbe : (e.1 == other) = false := beq_eq_false_iff_ne.mpr heo
        simp only [writeFile, if_neg he, lookupDisk, List.find?_cons, hbe]
        simpa [lookupDisk] using ih

/-- A one-row dataset with a `Name` column and one numeric feature. -/
def dfOne : DataFrame := ⟨["Name", "x"], [["a", "1.0"]]⟩

/-- A dataset with only a `Name` column. -/
def dfNameOnly : DataFrame := ⟨["Name"], [["a"]]⟩

/-- A request with `method=invalid` but no uploaded file. -/
def reqNoFileInvalid : ClusterRequest :=
  ⟨false, Except.ok dfNameOnly, "invalid", 3, 1/2, 5, 3/2⟩

/-- A request uploading `dfNameOnly` with `method=invalid`. -/
def reqInvalidMethod : ClusterRequest :=
  ⟨true, Except.ok dfNameOnly, "invalid", 3, 1/2, 5, 3/2⟩

/-- A request with a recognized method but no uploaded file. -/
def reqNoFileKmeans : ClusterRequest :=
  ⟨false, Except.ok dfNameOnly, "kmeans", 3, 1/2, 5, 3/2⟩

/-- C1: claimed, for every dataset with a `Name` column and every recognized
method, `perform_clustering` returns a table with the input's row count and
its `Name` column unchanged.  What the code actually does on such an input:
because each clusterer class defines `init` instead of `__init__`, the
constructor call raises `TypeError` for all five recognized methods, and no
output table is ever produced.  Evaluated here on the one-row dataset
`dfOne` for each of the five methods (the library interpretation is
irrelevant: it is never reached). -/
theorem perform_clustering_valid_methods_raise_typeError :
    perform_clustering constLib dfOne "kmeans" 3 (1/2) 5 (3/2) =
      Except.error (PyError.typeError "KMeansClusterer() takes no arguments") ∧
    perform_clustering constLib dfOne "dbscan" 3 (1/2) 5 (3/2) =
      Except.error (PyError.typeError "DBSCANClusterer() takes no arguments") ∧
    perform_clustering constLib dfOne "hierarchical" 3 (1/2) 5 (3/2) =
      Except.error (PyError.typeError "HierarchicalClusterer() takes no arguments") ∧
    perform_clustering constLib dfOne "meanshift" 3 (1/2) 5 (3/2) =
      Except.error (PyError.typeError "MeanShiftClusterer() takes no arguments") ∧
    perform_clustering constLib dfOne "agglomerative" 3 (1/2) 5 (3/2) =
      Except.error (PyError.typeError "AgglomerativeClusterer() takes no arguments") :=
  ⟨rfl, rfl, rfl, rfl, rfl⟩

/-- C2 counterexample: a `POST /cluster` request whose `method` field is
`invalid` but which uploads no file is answered 400 with the message
`No file uploaded`, which does not contain the recognized method list (it
does not even contain `kmeans`).  So the claim as stated — quantifying over
every request with an unrecognized method — fails. -/
theorem cluster_data_invalid_no_file_lacks_method_list :
    reqNoFileInvalid.method ∉ validMethods ∧
    cluster_data constLib reqNoFileInvalid =
      (Except.ok (HttpResponse.jsonError 400 "No file uploaded"), []) ∧
    strHasSub "No file uploaded" "kmeans" = false :=
  ⟨by decide, rfl, by decide⟩

/-- C2 (amended): for every request that uploads a file whose spreadsheet
parses into a dataset with a `Name` column, an unrecognized method name is
answered 400 with the `ValueError` message of source line 147, which
contains all five recognized method names; nothing is written to disk. -/
theorem cluster_data_invalid_method_400_with_list (lib : SKLearn)
    (req : ClusterRequest) (df : DataFrame) (hf : req.hasFile = true)
    (hx : req.readExcel = Except.ok df) (hn : "Name" ∈ df.header)
    (hm : req.method ∉ validMethods) :
    cluster_data lib req = (Except.ok (HttpResponse.jsonError 400 invalidMethodMsg), []) ∧
    validMethods.all (fun m => strHasSub invalidMethodMsg m) = true := by
  refine ⟨?_, by decide⟩
  simp [cluster_data, hf, hx,
    perform_clustering_invalid_method lib df req.method req.n_clusters req.eps
      req.min_samples req.threshold hn hm, respond_with_result]

/-- Witness for C2 (amended) at a concrete request with `method=invalid`
and a parsed one-column dataset. -/
theorem cluster_data_invalid_method_400_with_list_witness :
    cluster_data constLib reqInvalidMethod =
      (Except.ok (HttpResponse.jsonError 400 invalidMethodMsg), []) ∧
    validMethods.all (fun m => strHasSub invalidMethodMsg m) = true :=
  cluster_data_invalid_method_400_with_list constLib reqInvalidMethod dfNameOnly
    rfl rfl (by decide) (by decide)

/-- C3 counterexample: a request with the recognized method `kmeans` but no
uploaded file is still answered 400, so a 400 status does not imply an
unrecognized method name; the claimed equivalence fails. -/
theorem cluster_data_400_with_recognized_method :
    (cluster_data constLib reqNoFileKmeans).1 =
      Except.ok (HttpResponse.jsonError 400 "No file uploaded") ∧
    reqNoFileKmeans.method ∈ validMethods :=
  ⟨rfl, by decide⟩

/-- A handler outcome that is a structured 400 response. -/
def is400 (r : Except PyError HttpResponse) : Prop :=
  ∃ resp, r = Except.ok resp ∧ resp.status = 400

/-- C3 (amended): `POST /cluster` is answered with a structured 400
response exactly when either no file was uploaded, or the spreadsheet
parsed into a dataset with a `Name` column and the method name was
unrecognized.  (Any other failure leaves the handler as an unhandled
exception, not a 400.) -/
theorem cluster_data_400_iff (lib : SKLearn) (req : ClusterRequest) :
    is400 (cluster_data lib req).1 ↔
      (req.hasFile = false ∨
        ∃ df, req.readExcel = Except.ok df ∧ "Name" ∈ df.header ∧
          req.method ∉ validMethods) := by
  by_cases hf : req.hasFile = false
  · simp [cluster_data, hf, is400, HttpResponse.status]
  · have hf' : req.hasFile = true := by revert hf; cases req.hasFile <;> simp
    cases hx : req.readExcel with
    | error e => simp [cluster_data, hf', hx, is400]
    | ok df =>
      by_cases hn : "Name" ∈ df.header
      · by_cases hm : req.method ∈ validMethods
        · obtain ⟨msg, hpc⟩ := perform_clustering_valid_typeError lib df req.method
            req.n_clusters req.eps req.min_samples req.threshold hn hm
          simp [cluster_data, hf', hx, hpc, respond_with_result, is400, hm]
        · simp [cluster_data, hf', hx,
            perform_clustering_invalid_method lib df req.method req.n_clusters req.eps
              req.min_samples req.threshold hn hm,
            respond_with_result, is400, HttpResponse.status, hn, hm]
      · simp [cluster_data, hf', hx,
          perform_clustering_missing_name lib df req.method req.n_clusters req.eps
            req.min_samples req.threshold hn,
          respond_with_result, is400, hn]

/-- C4 counterexample: the key `FARSI` is neither `english` nor one of
`farsi`, `arabic`, `french`, so by the claim it would have to yield the
English dictionary; but `get_clustering_guide` lowercases its argument
first (source line 190) and returns the Farsi dictionary, which differs
from the English one. -/
theorem get_clustering_guide_uppercase_farsi_not_english :
    ("FARSI" ∉ (["english", "farsi", "arabic", "french"] : List String)) ∧
    get_clustering_guide "FARSI" = farsiGuide ∧ farsiGuide ≠ englishGuide :=
  ⟨by decide, by decide, by decide⟩

/-- C4 (amended): the dictionary returned depends only on the lowercased
key: keys lowering to `farsi`, `arabic` or `french` give the corresponding
localized dictionary, and every key lowering to anything else (including
`english` itself) gives the English dictionary. -/
theorem get_clustering_guide_lowered_lookup (s : String) :
    (pyLower s = "farsi" → get_clustering_guide s = farsiGuide) ∧
    (pyLower s = "arabic" → get_clustering_guide s = arabicGuide) ∧
    (pyLower s = "french" → get_clustering_guide s = frenchGuide) ∧
    (pyLower s ≠ "farsi" → pyLower s ≠ "arabic" → pyLower s ≠ "french" →
      get_clustering_guide s = englishGuide) := by
  refine ⟨fun h => ?_, fun h => ?_, fun h => ?_, fun h1 h2 h3 => ?_⟩
  · show guidesGet (pyLower s) = farsiGuide
    rw [h]; decide
  · show guidesGet (pyLower s) = arabicGuide
    rw [h]; decide
  · show guidesGet (pyLower s) = frenchGuide
    rw [h]; decide
  · show guidesGet (pyLower s) = englishGuide
    by_cases he : pyLower s = "english"
    · rw [he]; decide
    · simp [guidesGet, he, h1, h2, h3]

/-- Witness for C4 (amended): `FARSI` lowers to `farsi` and gets the Farsi
dictionary; `german` lowers to itself, is unrecognized, and gets the
English dictionary. -/
theorem get_clustering_guide_lowered_lookup_witness :
    get_clustering_guide "FARSI" = farsiGuide ∧
    get_clustering_guide "german" = englishGuide :=
  ⟨(get_clustering_guide_lowered_lookup "FARSI").1 (by decide),
   (get_clustering_guide_lowered_lookup "german").2.2.2
     (by decide) (by decide) (by decide)⟩

/-- C5: with a file uploaded, every failure other than an unrecognized
method name escapes `cluster_data` as an unhandled exception (the handler
catches only `ValueError`, and only `perform_clustering` runs inside the
`try`): a spreadsheet that fails to parse propagates its exception
(`pd.read_excel` runs outside the `try`); a dataset without a `Name`
column propagates a `KeyError`, not a `ValueError`; and any request with a
recognized method — whatever its numeric parameters, in range or not —
propagates a `TypeError` from the clusterer constructor.  No structured
400 response and no file write happens in any of these cases. -/
theorem cluster_data_nonmethod_failures_unhandled (lib : SKLearn)
    (req : ClusterRequest) (hf : req.hasFile = true) :
    (∀ e, req.readExcel = Except.error e →
      cluster_data lib req = (Except.error e, [])) ∧
    (∀ df, req.readExcel = Except.ok df → "Name" ∉ df.header →
      cluster_data lib req = (Except.error (PyError.keyError "Name"), [])) ∧
    (∀ df, req.readExcel = Except.ok df → "Name" ∈ df.header →
      req.method ∈ validMethods →
      ∃ msg, cluster_data lib req = (Except.error (PyError.typeError msg), [])) := by
  refine ⟨fun e he => ?_, fun df hx hn => ?_, fun df hx hn hm => ?_⟩
  · simp [cluster_data, hf, he]
  · simp [cluster_data, hf, hx,
      perform_clustering_missing_name lib df req.method req.n_clusters req.eps
        req.min_samples req.threshold hn, respond_with_result]
  · obtain ⟨msg, hpc⟩ := perform_clustering_valid_typeError lib df req.method
      req.n_clusters req.eps req.min_samples req.threshold hn hm
    exact ⟨msg, by simp [cluster_data, hf, hx, hpc, respond_with_result]⟩

/-- A request whose uploaded bytes fail to parse as a spreadsheet. -/
def reqMalformed : ClusterRequest :=
  ⟨true, Except.error (PyError.other "File is not a zip file"), "kmeans", 3, 1/2, 5, 3/2⟩

/-- Witness for C5 at a concrete malformed-spreadsheet request: the parse
error escapes the handler unchanged and nothing is written. -/
theorem cluster_data_nonmethod_failures_unhandled_witness :
    cluster_data constLib reqMalformed =
      (Except.error (PyError.other "File is not a zip file"), []) :=
  (cluster_data_nonmethod_failures_unhandled constLib reqMalformed rfl).1
    (PyError.other "File is not a zip file") rfl

/-- A four-point dataset with two well-separated groups (features near 0
and near 10). -/
def dfSeparated : DataFrame :=
  ⟨["Name", "x"], [["p1", "0.0"], ["p2", "0.1"], ["p3", "10.0"], ["p4", "10.1"]]⟩

/-- The round-trip request of C6: upload `dfSeparated`, `method=kmeans`,
`n_clusters=2`. -/
def reqSeparated : ClusterRequest :=
  ⟨true, Except.ok dfSeparated, "kmeans", 2, 1/2, 5, 3/2⟩

/-- C6: claimed, a kmeans request with the correct cluster count on a
well-separated dataset reproduces the expected partition up to label
permutation.  What the code actually does: the request never produces any
labeling — `KMeansClusterer(features, n_clusters=2)` raises `TypeError`
(the class defines `init`, not `__init__`) before scikit-learn is ever
invoked, and the exception escapes the handler unhandled. -/
theorem cluster_data_kmeans_separated_typeError :
    cluster_data constLib reqSeparated =
      (Except.error (PyError.typeError "KMeansClusterer() takes no arguments"), []) :=
  rfl

/-- C7: the guide endpoint is a fixed, immutable table: its response to a
given language key is identical across any two server states and any two
library interpretations (hence independent of all prior requests, which
can only influence the disk), and serving it leaves the state unchanged. -/
theorem serve_guide_state_independent (lib lib' : SKLearn) (d d' : Disk)
    (lang : Option String) :
    (serve lib d (ApiRequest.guideGet lang)).1 =
      (serve lib' d' (ApiRequest.guideGet lang)).1 ∧
    (serve lib d (ApiRequest.guideGet lang)).2 = d :=
  ⟨rfl, rfl⟩

/-- C8: when the clustering stage succeeds (source lines 219-222), the
handler responds with the result as an attachment and its write log is
exactly one write, to the fixed name `clusters_output.xlsx`; applying that
log to any disk overwrites that one entry and leaves every other file
untouched.  (With the `init` defect of the clusterer classes no request
reaches this stage, so the property is stated on the post-clustering stage
`respond_with_result` rather than vacuously on whole requests.) -/
theorem respond_success_single_write :
    (∀ df : DataFrame, respond_with_result (Except.ok df) =
      (Except.ok (HttpResponse.fileAttachment 200 outputFileName df),
        [(outputFileName, df)])) ∧
    (∀ (d : Disk) (df : DataFrame),
      lookupDisk (applyWrites d [(outputFileName, df)]) outputFileName = some df ∧
      ∀ nm, nm ≠ outputFileName →
        lookupDisk (applyWrites d [(outputFileName, df)]) nm = lookupDisk d nm) := by
  refine ⟨fun df => rfl, fun d df => ⟨?_, fun nm h => ?_⟩⟩
  · simpa [applyWrites] using lookupDisk_writeFile_self d outputFileName df
  · simpa [applyWrites] using lookupDisk_writeFile_other d outputFileName nm df h

/-- The content a previous request might have left on disk. -/
def dfPrev : DataFrame := ⟨["Name", "Cluster"], [["old", "0"]]⟩

/-- Witness for C8 at a concrete result frame and a concrete disk holding
an unrelated file: the success response writes the fixed name once and the
unrelated file is untouched. -/
theorem respond_success_single_write_witness :
    respond_with_result (Except.ok dfNameOnly) =
      (Except.ok (HttpResponse.fileAttachment 200 outputFileName dfNameOnly),
        [(outputFileName, dfNameOnly)]) ∧
    lookupDisk (applyWrites [("keep.xlsx", dfPrev)] [(outputFileName, dfNameOnly)])
        "keep.xlsx" = lookupDisk [("keep.xlsx", dfPrev)] "keep.xlsx" :=
  ⟨respond_success_single_write.1 dfNameOnly,
   (respond_success_single_write.2 [("keep.xlsx", dfPrev)] dfNameOnly).2
     "keep.xlsx" (by decide)⟩

/-- C9: whenever `POST /cluster` is answered with a structured 400 response
— no file uploaded, or unrecognized method name — the request's write log
is empty and the disk is left exactly as it was: both 400 branches return
before the `to_excel` call of source line 220. -/
theorem serve_400_leaves_disk_unchanged (lib : SKLearn) (d : Disk)
    (req : ClusterRequest) (resp : HttpResponse)
    (h : (cluster_data lib req).1 = Except.ok resp) (h4 : resp.status = 400) :
    (serve lib d (ApiRequest.clusterPost req)).2 = d := by
  suffices hw : (cluster_data lib req).2 = [] by
    simp [serve, hw, applyWrites]
  by_cases hf : req.hasFile = false
  · simp [cluster_data, hf]
  · have hf' : req.hasFile = true := by revert hf; cases req.hasFile <;> simp
    cases hx : req.readExcel with
    | error e => simp [cluster_data, hf', hx] at h
    | ok df =>
      cases hpc : perform_clustering lib df req.method req.n_clusters req.eps
          req.min_samples req.threshold with
      | error e =>
        cases e with
        | typeError msg => simp [cluster_data, hf', hx, hpc, respond_with_result] at h
        | valueError msg => simp [cluster_data, hf', hx, hpc, respond_with_result]
        | keyError msg => simp [cluster_data, hf', hx, hpc, respond_with_result] at h
        | other msg => simp [cluster_data, hf', hx, hpc, respond_with_result] at h
      | ok df' =>
        simp only [cluster_data, hf', hx, respond_with_result, hpc,
          Bool.true_eq_false, if_false] at h
        have hresp : resp = HttpResponse.fileAttachment 200 outputFileName df' :=
          (Except.ok.injEq _ _ ▸ h).symm
        rw [hresp] at h4
        simp [HttpResponse.status] at h4

/-- A 400-answered request used to instantiate C9: no file uploaded. -/
def reqNoFileEmpty : ClusterRequest :=
  ⟨false, Except.ok (DataFrame.mk [] []), "kmeans", 3, 1/2, 5, 3/2⟩

/-- Witness for C9 at a concrete 400-answered request over a concrete
disk holding one file: the disk is returned unchanged. -/
theorem serve_400_leaves_disk_unchanged_witness :
    (serve constLib [("keep2.xlsx", dfPrev)] (ApiRequest.clusterPost reqNoFileEmpty)).2 =
      [("keep2.xlsx", dfPrev)] :=
  serve_400_leaves_disk_unchanged constLib [("keep2.xlsx", dfPrev)] reqNoFileEmpty
    (HttpResponse.jsonError 400 "No file uploaded") rfl rfl

/-- C10: guide lookup is case-insensitive — looking a key up is the same
as looking up its Python-lowercased form, because `get_clustering_guide`
lowercases its argument and lowercasing is idempotent. -/
theorem get_clustering_guide_case_insensitive (s : String) :
    get_clustering_guide s = get_clustering_guide (pyLower s) := by
  show guidesGet (pyLower s) = guidesGet (pyLower (pyLower s))
  rw [pyLower_idem]
